import Mathlib

/-!
Verification of the cross-interpreter call-marshaling and thread-affinity
dispatch subsystem of the AltHexPython plugin, by a shallow embedding of its
C sources (src/subinterp.c, src/interpcall.c, src/delegate.c,
src/delegateproxy.c, src/context.c and the InterpObjProxy / AsyncResult
translation units) into Lean.

Python thread states are modelled by natural-number identifiers, Python
values by an inductive `Val`, and the mutable globals of subinterp.c
(`py_main_has_gil`, the GIL, the active thread state) by an explicit record
`TSState` threaded through the functions that mutate them.
-/

namespace AltHexPython

/-! ## Execution-context switch protocol (src/subinterp.c)

`SwitchTSInfo` mirrors the C struct of the same name: `do_release` records
that `switch_threadstate` acquired the GIL via `PyGILState_Ensure` and that
the matching `switch_threadstate_back` must release it; `do_swap` records
that a thread-state swap occurred and must be undone; `prior` is the thread
state that was active before the swap (`NULL` is modelled as `0`).
-/

structure SwitchTSInfo where
  do_release : Bool
  do_swap : Bool
  prior : Nat
deriving DecidableEq, Repr

/-- Global state touched by the switch protocol: the `py_main_has_gil` flag
of subinterp.c, the GIL recursion depth maintained by
`PyGILState_Ensure` / `PyGILState_Release`, and the thread state currently
active on the (main) thread (`PyThreadState_Get` / `PyThreadState_Swap`). -/
structure TSState where
  main_has_gil : Bool
  gil_depth : Nat
  cur : Nat
deriving DecidableEq, Repr

/-- Embedding of `switch_threadstate` (src/subinterp.c lines 550-585): if
`py_main_has_gil` is clear, ensure the GIL and record `do_release`; then, if
the requested thread state differs from the current one, swap to it and
record `do_swap` together with the prior thread state.  Returns the
`SwitchTSInfo` for the matching `switch_threadstate_back` call plus the
updated global state. -/
def switch_threadstate (ts : Nat) (s : TSState) : SwitchTSInfo × TSState :=
  let acq := !s.main_has_gil
  let s1 : TSState :=
    if acq then
      { s with main_has_gil := true, gil_depth := s.gil_depth + 1 }
    else s
  if ts ≠ s1.cur then
    (⟨acq, true, s1.cur⟩, { s1 with cur := ts })
  else
    (⟨acq, false, 0⟩, s1)

/-- Embedding of `switch_threadstate_back` (src/subinterp.c lines 587-599):
swap back to the prior thread state when `do_swap` is set, then release the
GIL and clear `py_main_has_gil` when `do_release` is set. -/
def switch_threadstate_back (tsinfo : SwitchTSInfo) (s : TSState) : TSState :=
  let s1 : TSState := if tsinfo.do_swap then { s with cur := tsinfo.prior } else s
  if tsinfo.do_release then
    { s1 with gil_depth := s1.gil_depth - 1, main_has_gil := false }
  else s1

/-- State effect of `InterpCall_call` in src/interpcall.c (lines 112-143).
The C function declares a local `SwitchTSInfo tsinfo` but never assigns it:
the value returned by `switch_threadstate(self->threadstate)` is discarded,
and the uninitialized `tsinfo` is what reaches `switch_threadstate_back`.
The indeterminate stack contents are made explicit here as the `junk`
parameter. -/
def InterpCall_call_switch (target : Nat) (junk : SwitchTSInfo) (s : TSState) : TSState :=
  let s1 := (switch_threadstate target s).2
  switch_threadstate_back junk s1

/-- Properly matched enter/leave discipline: `switch_threadstate_back`
applied to the value actually returned by `switch_threadstate` restores the
global state exactly. -/
theorem switch_matched_restores (ts : Nat) (s : TSState) :
    switch_threadstate_back (switch_threadstate ts s).1 (switch_threadstate ts s).2 = s := by
  obtain ⟨g, d, c⟩ := s
  unfold switch_threadstate switch_threadstate_back
  by_cases hg : g <;> by_cases hc : ts = c <;>
    simp_all

/-! ## Python values and exceptions

A small universe of Python values sufficient for the marshaling layer:
primitives, `hexchat.Context` objects, exception instances, plain
non-callable objects, plain callables, and the wrapper types
`hexchat.InterpCall`, `hexchat.InterpObjProxy` and `hexchat.DelegateProxy`.
-/

/-- Exception instance: its type name (e.g. "ValueError") and whether
`PyException_SetTraceback` has attached the captured traceback to it. -/
structure Exc where
  ty : String
  tb_set : Bool
deriving DecidableEq, Repr

/-- Python values crossing the proxy layer.  `obj` and `func` carry an
identity so distinct allocations are distinguishable; `objProxy` carries the
allocation identity of the proxy itself plus the wrapped value, matching
`InterpObjProxyObj`; `interpCall` records the bound interpreter and wrapped
callable, matching `InterpCallObj`; `delegProxy` records the `is_async` flag
and wrapped object, matching `DelegateProxyObj`. -/
inductive Val where
  | none
  | int (n : Int)
  | str (s : String)
  | bool (b : Bool)
  | ctx (id : Nat)
  | exc (e : Exc)
  | obj (id : Nat)
  | func (id : Nat)
  | interpCall (interp : Nat) (f : Val)
  | objProxy (id : Nat) (inner : Val)
  | delegProxy (is_async : Bool) (inner : Val)
deriving DecidableEq, Repr

/-- Modelled from the spec: `interp_is_primitive` is declared and called
throughout the sources (src/unnamed/part_000, part_003) but its definition
is not among the provided files.  The spec states "Primitive values
(numbers, strings, booleans, none) are never wrapped — returned as direct
copies", so integers, strings, booleans and none are primitive and nothing
else is. -/
def interp_is_primitive : Val → Bool
  | .none => true
  | .int _ => true
  | .str _ => true
  | .bool _ => true
  | _ => false

/-- True for values for which `PyCallable_Check` holds in this universe:
plain callables.  (InterpCall instances are also callable, but every call
site in the embedded code tests proxy-instance membership first.) -/
def val_callable : Val → Bool
  | .func _ => true
  | .interpCall _ _ => true
  | _ => false

/-- Shared epilogue of `Delegate_call` and of `asyncresult_queue_get` /
`asyncresult_set_result`: a value whose type is `hexchat.Context` is wrapped
in a `DelegateProxy` with the given `is_async` flag; anything else passes
through unchanged. -/
def wrap_context (is_async : Bool) : Val → Val
  | .ctx i => .delegProxy is_async (.ctx i)
  | v => v

/-! ## Thread-affinity dispatcher (src/delegate.c) and AsyncResult

The host timer queue (`hexchat_hook_timer`) and the per-call
`queue.Queue(1)` result channels are modelled explicitly.  A callable's
behaviour when finally invoked is abstracted as its outcome, an
`Except Exc Val`.  The model also keeps a log of performed invocations so
that "the callable executes only when the pump runs" is a statement about
observable state.
-/

/-- Record posted to a result channel by `Delegate_timer_callback`: the C
code builds the two-element list `[0, result]` on success and `[-1, exc]`
on failure. -/
inductive RRecord where
  | success (v : Val)
  | failure (e : Exc)
deriving DecidableEq, Repr

deriving instance DecidableEq for Except

/-- Embedding of the C struct `DelegateData`: what the invocation will do
(`outcome` stands for `PyObject_Call(callable, args, kwargs)`), the
`is_async` flag, the result-channel identifier, and the target thread
state. -/
structure DelegateData where
  outcome : Except Exc Val
  is_async : Bool
  queue : Nat
  threadstate : Nat
deriving DecidableEq, Repr

/-- Point update of a channel map. -/
def updCh (f : Nat → List RRecord) (i : Nat) (v : List RRecord) : Nat → List RRecord :=
  fun j => if j = i then v else f j

/-- World state for the dispatcher: the host timer queue (FIFO), the result
channels (`chan i` is the contents of channel `i`; `nextChan` the next fresh
channel id), and the ordered log of callable invocations actually
performed on the main thread. -/
structure World where
  timerQueue : List DelegateData
  chan : Nat → List RRecord
  nextChan : Nat
  executed : List (Except Exc Val)

/-- Non-main-thread prologue of `Delegate_call` (src/delegate.c lines
185-205): allocate a `DelegateData`, create a fresh `queue.Queue(1)` result
channel, and hand the invocation to `hexchat_hook_timer`.  Returns the new
channel's id together with the updated world. -/
def Delegate_enqueue (outcome : Except Exc Val) (is_async : Bool) (mainTS : Nat)
    (w : World) : Nat × World :=
  let qid := w.nextChan
  (qid,
    { w with
        chan := updCh w.chan qid []
        nextChan := w.nextChan + 1
        timerQueue := w.timerQueue ++ [⟨outcome, is_async, qid, mainTS⟩] })

/-- Embedding of `Delegate_timer_callback` (src/delegate.c lines 259-321):
invoke the callable (logging the invocation), normalise a failure and attach
its traceback, build the status record, and `put` it on the invocation's
result channel. -/
def Delegate_timer_callback (w : World) (d : DelegateData) : World :=
  let record : RRecord :=
    match d.outcome with
    | .ok v => .success v
    | .error e => .failure { e with tb_set := true }
  { w with
      executed := w.executed ++ [d.outcome]
      chan := updCh w.chan d.queue (w.chan d.queue ++ [record]) }

/-- A main-thread event-queue pump: HexChat services every pending timer
callback in FIFO order. -/
def pump (w : World) : World :=
  List.foldl Delegate_timer_callback { w with timerQueue := [] } w.timerQueue

/-- Blocking `queue.get`: `none` while the channel is empty (the caller
stays blocked); otherwise the head record is consumed. -/
def queue_get (w : World) (qid : Nat) : Option (RRecord × World) :=
  match w.chan qid with
  | [] => Option.none
  | r :: rest => some (r, { w with chan := updCh w.chan qid rest })

/-- Synchronous-mode epilogue of `Delegate_call` (src/delegate.c lines
207-234 and the final Context check at lines 248-255): block reading the
result channel; on status 0 return the payload (wrapping a Context return
in a synchronous `DelegateProxy`), otherwise restore the captured exception
in the caller.  `none` means the caller is still blocked. -/
def Delegate_sync_finish (w : World) (qid : Nat) : Option (Except Exc Val × World) :=
  match queue_get w qid with
  | Option.none => Option.none
  | some (.success v, w1) => some (.ok (wrap_context false v), w1)
  | some (.failure e, w1) => some (.error e, w1)

/-- Future/deferred result (`AsyncResultObj`): bound channel, `done` flag,
and the cached `result` / `error` fields, both initialised to `None` by
`AsyncResult_init`. -/
structure AsyncResult where
  queue : Nat
  done : Bool
  result : Val
  error : Val
deriving DecidableEq, Repr

/-- Asynchronous-mode epilogue of `Delegate_call` (src/delegate.c lines
236-243): construct an `AsyncResult` bound to the invocation's channel and
return it immediately; no channel read is performed and no error can be
raised.  The function is total: it returns in every case. -/
def Delegate_async_finish (qid : Nat) : AsyncResult :=
  ⟨qid, false, .none, .none⟩

/-- Whole non-main-thread asynchronous `Delegate_call`: enqueue the
invocation and immediately return the `AsyncResult` (the final Context
check does not fire since an `AsyncResult` is not a Context). -/
def Delegate_call_async (outcome : Except Exc Val) (mainTS : Nat) (w : World) :
    AsyncResult × World :=
  let (qid, w1) := Delegate_enqueue outcome true mainTS w
  (Delegate_async_finish qid, w1)

/-- Embedding of `asyncresult_queue_get` (src/unnamed/part_003 lines
651-706): if `done` is already set return at once without touching the
channel; otherwise set `done`, do the blocking `queue.get`, and store the
payload into `error` (status non-zero) or into `result` (status zero,
wrapping a Context in an asynchronous `DelegateProxy`).  `none` models the
caller blocked on an empty channel. -/
def asyncresult_queue_get (w : World) (a : AsyncResult) : Option (AsyncResult × World) :=
  if a.done then some (a, w)
  else
    match queue_get w a.queue with
    | Option.none => Option.none
    | some (.failure e, w1) => some ({ a with done := true, error := .exc e }, w1)
    | some (.success v, w1) =>
        some ({ a with done := true, result := wrap_context true v }, w1)

/-- Accessor for the `result` property (`AsyncResult_get_result`). -/
def AsyncResult_get_result (w : World) (a : AsyncResult) :
    Option (Val × AsyncResult × World) :=
  match asyncresult_queue_get w a with
  | Option.none => Option.none
  | some (a1, w1) => some (a1.result, a1, w1)

/-- Accessor for the `error` property (`AsyncResult_get_error`). -/
def AsyncResult_get_error (w : World) (a : AsyncResult) :
    Option (Val × AsyncResult × World) :=
  match asyncresult_queue_get w a with
  | Option.none => Option.none
  | some (a1, w1) => some (a1.error, a1, w1)

/-! ## Object attribute proxy (src/unnamed/part_003, InterpObjProxy) and
MainInterp attribute forwarding (src/interpcall.c)

Attribute access on foreign objects.  The wrapped object's attribute table
is a function `String → Option AttrV`, where an `AttrV` carries the
attribute's value, whether `PyObject_Hash` succeeds on it, and its address
(the `PyLong_FromVoidPtr` fallback key).  `PyObject_GenericGetAttr` — the
lookup of proxy-local attributes such as `obj` and `__dir__` — is a
separate function parameter.
-/

/-- Attribute of a wrapped object as seen by `InterpObjProxy_getattro`:
its value, whether it is hashable, and its address. -/
structure AttrV where
  v : Val
  hashable : Bool
  addr : Nat
deriving DecidableEq, Repr

/-- Cache key: the attribute object itself when hashable (dict lookup by
equality), otherwise its address boxed by `PyLong_FromVoidPtr`. -/
abbrev CacheKey := Val ⊕ Nat

/-- Association-list lookup used to model `PyDict_Contains` /
`PyDict_GetItem` on the proxy's cache. -/
def cacheLookup : List (CacheKey × Val) → CacheKey → Option Val
  | [], _ => Option.none
  | (k, v) :: rest, key => if k = key then some v else cacheLookup rest key

/-- Mutable state of one proxy instance: the attribute cache, plus an
allocation counter giving constructed wrapper objects their identity. -/
structure ProxyState where
  cache : List (CacheKey × Val)
  nextId : Nat
deriving DecidableEq, Repr

/-- Outcome of an attribute read through a proxy. -/
inductive AttrRes where
  | ok (v : Val)
  | attrError
  | nameError
deriving DecidableEq, Repr

/-- Embedding of `InterpObjProxy_getattro` (src/unnamed/part_003 lines
194-287): try the generic (proxy-local) attributes first; then fetch the
attribute from the wrapped object in the target context, an absent
attribute propagating as the `AttributeError` raised there; compute the
cache key from the attribute (address-based when unhashable); primitives
pass through uncached; a cached wrapper is returned as-is; otherwise a new
`InterpObjProxy` is constructed, cached under the key, and returned. -/
def InterpObjProxy_getattro (generic : String → Option Val)
    (attrs : String → Option AttrV) (name : String) (st : ProxyState) :
    AttrRes × ProxyState :=
  match generic name with
  | some v => (.ok v, st)
  | Option.none =>
    match attrs name with
    | Option.none => (.attrError, st)
    | some av =>
      let key : CacheKey := if av.hashable then .inl av.v else .inr av.addr
      if interp_is_primitive av.v then (.ok av.v, st)
      else
        match cacheLookup st.cache key with
        | some p => (.ok p, st)
        | Option.none =>
          let p := Val.objProxy st.nextId av.v
          (.ok p, ⟨(key, p) :: st.cache, st.nextId + 1⟩)

/-- Lookup in the MainInterp cache, which `MainInterp_getattro` keys by the
attribute object itself (`PyDict_Contains(self->cache, pyattr)`). -/
def miCacheLookup : List (Val × Val) → Val → Option Val
  | [], _ => Option.none
  | (k, v) :: rest, key => if k = key then some v else miCacheLookup rest key

/-- Mutable state of the MainInterp singleton: its wrapper cache and an
allocation counter for constructed wrappers. -/
structure MIState where
  cache : List (Val × Val)
  nextId : Nat
deriving DecidableEq, Repr

/-- Embedding of `MainInterp_getattro` (src/interpcall.c lines 377-456):
generic attributes first; then the requested name is looked up in the main
interpreter's `__main__` dict.  An absent name raises a `NameError` ("name
… is not defined"); a present attribute is served from the cache, or
wrapped — callables in an `InterpCall`, anything else in an
`InterpObjProxy` — and cached. -/
def MainInterp_getattro (mainTS : Nat) (generic : String → Option Val)
    (mainDict : String → Option Val) (name : String) (st : MIState) :
    AttrRes × MIState :=
  match generic name with
  | some v => (.ok v, st)
  | Option.none =>
    match mainDict name with
    | Option.none => (.nameError, st)
    | some attr =>
      match miCacheLookup st.cache attr with
      | some p => (.ok p, st)
      | Option.none =>
        let p :=
          if val_callable attr then Val.interpCall mainTS attr
          else Val.objProxy st.nextId attr
        (.ok p, ⟨(attr, p) :: st.cache, st.nextId + 1⟩)

/-! ## Call-proxy argument/return marshaling

Embedding of the translation loops of `InterpCall_call`
(src/unnamed/part_000 lines 1411-1514) and `InterpObjProxy_call`
(src/unnamed/part_003 lines 415-510).  Fresh wrapper identities come from a
counter threaded through the translation.
-/

/-- True for values that are instances of `hexchat.InterpCall` or
`hexchat.InterpObjProxy` (the `PyObject_IsInstance` tests of
`InterpCall_call`). -/
def is_proxy_instance : Val → Bool
  | .interpCall _ _ => true
  | .objProxy _ _ => true
  | _ => false

/-- True for values that are instances of `hexchat.InterpObjProxy` only
(the test of `InterpObjProxy_call`). -/
def is_objproxy_instance : Val → Bool
  | .objProxy _ _ => true
  | _ => false

/-- Argument translation of `InterpCall_call`: existing proxies and
primitives pass through unchanged; plain callables are wrapped in an
`InterpCall` bound to the caller's context (the one-argument constructor
defaults `interp` to the current thread state); other values are wrapped in
a fresh `InterpObjProxy` bound to the caller's context. -/
def interpcall_wrap_arg (caller : Nat) (v : Val) (n : Nat) : Val × Nat :=
  if is_proxy_instance v || interp_is_primitive v then (v, n)
  else if val_callable v then (.interpCall caller v, n)
  else (.objProxy n v, n + 1)

/-- Argument translation over a positional-argument list, left to right. -/
def interpcall_wrap_args (caller : Nat) : List Val → Nat → List Val × Nat
  | [], n => ([], n)
  | v :: rest, n =>
    let (v1, n1) := interpcall_wrap_arg caller v n
    let (rest1, n2) := interpcall_wrap_args caller rest n1
    (v1 :: rest1, n2)

/-- Argument translation over the keyword-argument dict. -/
def interpcall_wrap_kwargs (caller : Nat) :
    List (String × Val) → Nat → List (String × Val) × Nat
  | [], n => ([], n)
  | (k, v) :: rest, n =>
    let (v1, n1) := interpcall_wrap_arg caller v n
    let (rest1, n2) := interpcall_wrap_kwargs caller rest n1
    ((k, v1) :: rest1, n2)

/-- Return-value translation of `InterpCall_call`: `None` passes through;
a callable result is wrapped in an `InterpCall` bound to the target
context; a non-primitive result is wrapped in a fresh `InterpObjProxy`
bound to the target context; primitives pass through. -/
def interpcall_wrap_ret (target : Nat) (v : Val) (n : Nat) : Val × Nat :=
  if v = .none then (v, n)
  else if val_callable v then (.interpCall target v, n)
  else if interp_is_primitive v then (v, n)
  else (.objProxy n v, n + 1)

/-- Whole `InterpCall_call` marshaling pipeline: translate positional and
keyword arguments, invoke the wrapped callable on the translated arguments
in the target context (`f` stands for `PyObject_Call(self->callable, ...)`,
its error outcome captured and re-raised in the caller), and translate the
return value. -/
def InterpCall_call_marshal (target caller : Nat)
    (f : List Val → List (String × Val) → Except Exc Val)
    (args : List Val) (kwargs : List (String × Val)) (n : Nat) :
    Except Exc Val × Nat :=
  let (args1, n1) := interpcall_wrap_args caller args n
  let (kw1, n2) := interpcall_wrap_kwargs caller kwargs n1
  match f args1 kw1 with
  | .error e => (.error e, n2)
  | .ok r =>
    let (r1, n3) := interpcall_wrap_ret target r n2
    (.ok r1, n3)

/-- Argument translation of `InterpObjProxy_call`: `InterpObjProxy`
instances and primitives pass through; everything else (callable or not —
the `InterpCall` branch is commented out in the source) is wrapped in a
fresh `InterpObjProxy` bound to the caller's context. -/
def objproxy_wrap_arg (v : Val) (n : Nat) : Val × Nat :=
  if is_objproxy_instance v || interp_is_primitive v then (v, n)
  else (.objProxy n v, n + 1)

/-- Argument translation of `InterpObjProxy_call` over a list. -/
def objproxy_wrap_args : List Val → Nat → List Val × Nat
  | [], n => ([], n)
  | v :: rest, n =>
    let (v1, n1) := objproxy_wrap_arg v n
    let (rest1, n2) := objproxy_wrap_args rest n1
    (v1 :: rest1, n2)

/-- Return-value translation of `InterpObjProxy_call`: `None` and
primitives pass through; non-primitives are wrapped in a fresh
`InterpObjProxy` bound to the target context. -/
def objproxy_wrap_ret (v : Val) (n : Nat) : Val × Nat :=
  if v = .none then (v, n)
  else if interp_is_primitive v then (v, n)
  else (.objProxy n v, n + 1)

/-- Whole `InterpObjProxy_call` marshaling pipeline (keyword arguments
translate with the same per-value rule, so a single argument list stands
for both here; the source applies `objproxy_wrap_arg` to each positional
and keyword value alike). -/
def InterpObjProxy_call_marshal (f : List Val → Except Exc Val)
    (args : List Val) (n : Nat) : Except Exc Val × Nat :=
  let (args1, n1) := objproxy_wrap_args args n
  match f args1 with
  | .error e => (.error e, n1)
  | .ok r =>
    let (r1, n2) := objproxy_wrap_ret r n1
    (.ok r1, n2)

/-! ## Interpreter teardown (src/subinterp.c, delete_interp)

The observable steps of `delete_interp` as an event trace.  Each registered
unload callback is a `Bool` saying whether its invocation succeeds; a
failing callback only gets its error printed (`PyErr_Print`).  The
`switched` flag is the guard `PyThreadState_Get() == ts`: teardown work
only happens when the thread-state switch took effect. -/

inductive TEvent where
  | callbackCalled (i : Nat)
  | callbackErrorPrinted (i : Nat)
  | dataDestroyed
  | interpEnded
deriving DecidableEq, Repr

/-- The unload-callback loop of `delete_interp` (src/subinterp.c lines
186-204): invoke each registered callback in registration order; a failure
is printed and the loop continues. -/
def run_unload_hooks : List Bool → Nat → List TEvent
  | [], _ => []
  | ok :: rest, i =>
    (TEvent.callbackCalled i ::
      (if ok then [] else [TEvent.callbackErrorPrinted i]))
      ++ run_unload_hooks rest (i + 1)

/-- Embedding of `delete_interp` (src/subinterp.c lines 165-220) as its
event trace: when the thread-state switch took effect, run every unload
callback, then release the interpreter's private store
(`interp_destroy_data`), then end the interpreter (`Py_EndInterpreter`). -/
def delete_interp (switched : Bool) (hooks : List Bool) : List TEvent :=
  if switched then
    run_unload_hooks hooks 0 ++ [TEvent.dataDestroyed, TEvent.interpEnded]
  else []

/-- Predicate picking the callback-invocation events out of a trace. -/
def is_callback_event : TEvent → Bool
  | .callbackCalled _ => true
  | _ => false

/-! ## Rich comparison of the proxy types (src/unnamed/part_003,
src/delegateproxy.c, src/context.c)

Each `_cmp` function delegates to `PyObject_RichCompare` on the wrapped
payloads when the right operand has exactly the proxy's own type, and
returns `Py_False` for every operator otherwise.  The delegated comparison
is an opaque parameter `rc`. -/

/-- Exact runtime type tags relevant to the `Py_TYPE(b) == ...TypePtr`
tests. -/
inductive TypeTag where
  | interpObjProxyT
  | delegProxyT
  | contextT
  | otherT (name : String)
deriving DecidableEq, Repr

/-- A Python object as seen by the comparison functions: its exact type and
its wrapped payload (`self->obj`, or `self->ctxptrval` for Context). -/
structure PyObj where
  ty : TypeTag
  payload : Val
deriving DecidableEq, Repr

/-- The six rich-comparison operators. -/
inductive CmpOp where
  | lt | le | eq | ne | gt | ge
deriving DecidableEq, Repr

/-- Embedding of `InterpObjProxy_cmp` (src/unnamed/part_003 lines
388-398). -/
def InterpObjProxy_cmp (rc : Val → Val → CmpOp → Bool) (a b : PyObj)
    (op : CmpOp) : Bool :=
  if b.ty = TypeTag.interpObjProxyT then rc a.payload b.payload op else false

/-- Embedding of `DelegateProxy_cmp` (src/delegateproxy.c lines
288-298). -/
def DelegateProxy_cmp (rc : Val → Val → CmpOp → Bool) (a b : PyObj)
    (op : CmpOp) : Bool :=
  if b.ty = TypeTag.delegProxyT then rc a.payload b.payload op else false

/-- Embedding of `Context_cmp` (src/context.c lines 551-561). -/
def Context_cmp (rc : Val → Val → CmpOp → Bool) (a b : PyObj)
    (op : CmpOp) : Bool :=
  if b.ty = TypeTag.contextT then rc a.payload b.payload op else false

/-! ## Claim theorems -/

/-- C1: the claim states that every `InterpCall` invocation passes to
`switch_threadstate_back` exactly the `SwitchTSInfo` returned by
`switch_threadstate`, restoring lock state and active context.  The code of
`InterpCall_call` in src/interpcall.c instead discards the value returned by
`switch_threadstate` and passes its uninitialized local `tsinfo`.  This
theorem evaluates the embedded code at a failing input: with the GIL flag
already set, current thread state 5 and target 5, and stack garbage
`⟨true, true, 7⟩` in `tsinfo`, the invocation corrupts the global state
(releasing a GIL it did not acquire and swapping to an arbitrary thread
state); the garbage differs from the value `switch_threadstate` returned,
and passing the returned value would have restored the state exactly. -/
theorem interpcall_unmatched_switchstate :
    InterpCall_call_switch 5 ⟨true, true, 7⟩ ⟨true, 1, 5⟩ ≠ (⟨true, 1, 5⟩ : TSState) ∧
    (switch_threadstate 5 ⟨true, 1, 5⟩).1 ≠ ⟨true, true, 7⟩ ∧
    switch_threadstate_back (switch_threadstate 5 ⟨true, 1, 5⟩).1
      (switch_threadstate 5 ⟨true, 1, 5⟩).2 = ⟨true, 1, 5⟩ := by
  decide

/-- C2: for every context `A` and every starting global state, entering `A`
re-entrantly (enter, enter, then the two matching leaves innermost first)
restores the global-lock flag, the GIL depth and the active context exactly
to their initial values, and the inner enter/leave pair neither acquires
the lock (`do_release = false`) nor swaps the context (`do_swap = false`),
leaving the state untouched. -/
theorem switch_reentrant_enter_twice (A : Nat) (s : TSState) :
    (switch_threadstate A (switch_threadstate A s).2).1.do_release = false ∧
    (switch_threadstate A (switch_threadstate A s).2).1.do_swap = false ∧
    (switch_threadstate A (switch_threadstate A s).2).2 = (switch_threadstate A s).2 ∧
    switch_threadstate_back (switch_threadstate A s).1
      (switch_threadstate_back (switch_threadstate A (switch_threadstate A s).2).1
        (switch_threadstate A (switch_threadstate A s).2).2) = s := by
  obtain ⟨g, d, c⟩ := s
  by_cases hg : g <;> by_cases hc : A = c <;>
    simp_all [switch_threadstate, switch_threadstate_back]

/-- Filter of the hook-loop trace: the callback-invocation events are
exactly the registered callbacks, in registration order, whatever each
callback's success or failure. -/
theorem run_unload_hooks_filter (hooks : List Bool) (i : Nat) :
    (run_unload_hooks hooks i).filter is_callback_event =
      (List.range' i hooks.length).map TEvent.callbackCalled := by
  induction hooks generalizing i with
  | nil => simp [run_unload_hooks]
  | cons ok rest ih =>
    cases ok <;>
      simp [run_unload_hooks, is_callback_event, ih, List.range'_succ]

/-- C9: destroying a context (with the thread-state switch in effect)
invokes every registered unload callback, in registration order, even when
callbacks fail — the invocation events of the trace are exactly
`callbackCalled 0, …, callbackCalled (n-1)` for any pattern of failures —
and then teardown completes unconditionally: the trace always ends with the
private store being released followed by the interpreter being ended. -/
theorem delete_interp_runs_all_callbacks (hooks : List Bool) :
    (delete_interp true hooks).filter is_callback_event =
      (List.range hooks.length).map TEvent.callbackCalled ∧
    ∃ pre, delete_interp true hooks =
      pre ++ [TEvent.dataDestroyed, TEvent.interpEnded] := by
  constructor
  · simp [delete_interp, List.filter_append, run_unload_hooks_filter,
      List.range_eq_range', is_callback_event]
  · exact ⟨run_unload_hooks hooks 0, by simp [delete_interp]⟩

/-- C10: for every operand `b` that is not an instance of the proxy's exact
type, all six rich comparisons — including not-equal — return `False`, for
each of `InterpObjProxy_cmp`, `DelegateProxy_cmp` and `Context_cmp`; in
particular a proxy never compares equal or unequal to its own unwrapped
target value, whatever the delegated comparison `rc` would say. -/
theorem proxy_cmp_foreign_type_false (rc1 rc2 rc3 : Val → Val → CmpOp → Bool)
    (a1 b1 a2 b2 a3 b3 : PyObj) (op : CmpOp)
    (h1 : b1.ty ≠ TypeTag.interpObjProxyT)
    (h2 : b2.ty ≠ TypeTag.delegProxyT)
    (h3 : b3.ty ≠ TypeTag.contextT) :
    InterpObjProxy_cmp rc1 a1 b1 op = false ∧
    DelegateProxy_cmp rc2 a2 b2 op = false ∧
    Context_cmp rc3 a3 b3 op = false := by
  simp [InterpObjProxy_cmp, DelegateProxy_cmp, Context_cmp, h1, h2, h3]

/-- C10 witness: comparing an `InterpObjProxy` against its unwrapped target
(an int), a `DelegateProxy` against a Context, and a Context against an
int, with the not-equal operator, all return `False`, even under a
delegated comparison that would always answer `True`. -/
theorem proxy_cmp_foreign_type_false_witness :
    (⟨TypeTag.otherT "int", .int 3⟩ : PyObj).ty ≠ TypeTag.interpObjProxyT ∧
    (⟨TypeTag.contextT, .ctx 1⟩ : PyObj).ty ≠ TypeTag.delegProxyT ∧
    (⟨TypeTag.otherT "int", .int 3⟩ : PyObj).ty ≠ TypeTag.contextT ∧
    (InterpObjProxy_cmp (fun _ _ _ => true) ⟨TypeTag.interpObjProxyT, .int 3⟩
        ⟨TypeTag.otherT "int", .int 3⟩ CmpOp.ne = false ∧
      DelegateProxy_cmp (fun _ _ _ => true) ⟨TypeTag.delegProxyT, .ctx 1⟩
        ⟨TypeTag.contextT, .ctx 1⟩ CmpOp.ne = false ∧
      Context_cmp (fun _ _ _ => true) ⟨TypeTag.contextT, .int 3⟩
        ⟨TypeTag.otherT "int", .int 3⟩ CmpOp.ne = false) :=
  ⟨by decide, by decide, by decide,
    proxy_cmp_foreign_type_false _ _ _ _ _ _ _ _ _ _
      (by decide) (by decide) (by decide)⟩

/-- C3 counterexample: the claim says the blocked synchronous caller
receives exactly the callable's return value when the posted record is a
success.  For a callable returning a `hexchat.Context`, the final step of
`Delegate_call` wraps the value in a synchronous `DelegateProxy`, so the
caller receives the wrapper, not the value itself: dispatching an
invocation whose outcome is `ok (ctx 3)` and pumping once delivers
`ok (delegProxy false (ctx 3))`, which differs from `ok (ctx 3)`. -/
theorem delegate_sync_context_return_cex :
    (Delegate_sync_finish
        (pump (Delegate_enqueue (.ok (.ctx 3)) false 0 ⟨[], fun _ => [], 0, []⟩).2)
        (Delegate_enqueue (.ok (.ctx 3)) false 0 ⟨[], fun _ => [], 0, []⟩).1).map
        Prod.fst = some (.ok (.delegProxy false (.ctx 3))) ∧
    (Except.ok (Val.delegProxy false (.ctx 3)) : Except Exc Val) ≠ .ok (.ctx 3) := by
  constructor
  · rfl
  · decide

/-- C3 (amended): for every synchronous Delegate invocation from a
non-main thread, enqueuing hands the invocation to the timer queue with a
fresh empty result channel; before the pump runs the callable has not
executed and the blocking read does not complete; after one main-thread
pump the callable has executed exactly once, and the blocked caller
receives the callable's return value — a Context return value first being
wrapped in a synchronous DelegateProxy — or has the captured error, with
its traceback attached, delivered for re-raising in the calling context. -/
theorem delegate_sync_dispatch_correct (outcome : Except Exc Val) (mainTS : Nat)
    (ch : Nat → List RRecord) (nc : Nat) (ex : List (Except Exc Val)) :
    (Delegate_enqueue outcome false mainTS ⟨[], ch, nc, ex⟩).2.chan
      (Delegate_enqueue outcome false mainTS ⟨[], ch, nc, ex⟩).1 = [] ∧
    Delegate_sync_finish (Delegate_enqueue outcome false mainTS ⟨[], ch, nc, ex⟩).2
      (Delegate_enqueue outcome false mainTS ⟨[], ch, nc, ex⟩).1 = Option.none ∧
    (Delegate_enqueue outcome false mainTS ⟨[], ch, nc, ex⟩).2.executed = ex ∧
    (pump (Delegate_enqueue outcome false mainTS ⟨[], ch, nc, ex⟩).2).executed =
      ex ++ [outcome] ∧
    ∃ w3,
      Delegate_sync_finish (pump (Delegate_enqueue outcome false mainTS ⟨[], ch, nc, ex⟩).2)
          (Delegate_enqueue outcome false mainTS ⟨[], ch, nc, ex⟩).1 =
        some ((match outcome with
               | .ok v => .ok (wrap_context false v)
               | .error e => .error { e with tb_set := true }), w3) := by
  cases outcome <;>
    simp [Delegate_enqueue, pump, Delegate_timer_callback, Delegate_sync_finish,
      queue_get, updCh]

/-- C4: an asynchronous Delegate invocation from a non-main thread returns
at once — `Delegate_call_async` is total and yields the fresh `AsyncResult`
(bound to the new channel, not yet done, fields initialised to None)
without reading any channel, so nothing can be raised in the caller — and
the callable has not executed at return time.  After a main-thread pump,
for a callable that raises, reading the `error` property yields an
exception object of the same type with its traceback attached, and a
subsequent read of the `result` property yields the None sentinel. -/
theorem delegate_async_error_dispatch (e : Exc) (mainTS : Nat)
    (ch : Nat → List RRecord) (nc : Nat) (ex : List (Except Exc Val)) :
    (Delegate_call_async (.error e) mainTS ⟨[], ch, nc, ex⟩).1 =
      ⟨nc, false, .none, .none⟩ ∧
    (Delegate_call_async (.error e) mainTS ⟨[], ch, nc, ex⟩).2.executed = ex ∧
    ∃ a1 w3,
      AsyncResult_get_error (pump (Delegate_call_async (.error e) mainTS ⟨[], ch, nc, ex⟩).2)
          (Delegate_call_async (.error e) mainTS ⟨[], ch, nc, ex⟩).1 =
        some (.exc ⟨e.ty, true⟩, a1, w3) ∧
      AsyncResult_get_result w3 a1 = some (.none, a1, w3) := by
  refine ⟨rfl, rfl,
    ⟨nc, true, .none, .exc ⟨e.ty, true⟩⟩,
    ⟨[], updCh (updCh (updCh ch nc []) nc [RRecord.failure ⟨e.ty, true⟩]) nc [],
      nc + 1, ex ++ [.error e]⟩, ?_, ?_⟩ <;>
  simp [Delegate_call_async, Delegate_enqueue, Delegate_async_finish, pump,
    Delegate_timer_callback, AsyncResult_get_error, AsyncResult_get_result,
    asyncresult_queue_get, queue_get, updCh]

/-- C5: for an `AsyncResult` not yet done whose channel holds a record, the
first property read performs the single blocking receive (consuming exactly
the head record and setting `done`); thereafter every further read of
either property returns the cached values — identical to what the first
read produced — and leaves the world, channel included, completely
untouched, so the channel is read at most once per `AsyncResult`. -/
theorem asyncresult_read_idempotent (w : World) (a : AsyncResult)
    (r : RRecord) (rest : List RRecord)
    (h1 : a.done = false) (h2 : w.chan a.queue = r :: rest) :
    ∃ a1 w1,
      asyncresult_queue_get w a = some (a1, w1) ∧
      a1.done = true ∧
      w1.chan a.queue = rest ∧
      AsyncResult_get_result w a = some (a1.result, a1, w1) ∧
      AsyncResult_get_result w1 a1 = some (a1.result, a1, w1) ∧
      AsyncResult_get_error w1 a1 = some (a1.error, a1, w1) := by
  cases r with
  | success v =>
    refine ⟨{ a with done := true, result := wrap_context true v },
      { w with chan := updCh w.chan a.queue rest }, ?_⟩
    simp [asyncresult_queue_get, AsyncResult_get_result, AsyncResult_get_error,
      queue_get, updCh, h1, h2]
  | failure err =>
    refine ⟨{ a with done := true, error := .exc err },
      { w with chan := updCh w.chan a.queue rest }, ?_⟩
    simp [asyncresult_queue_get, AsyncResult_get_result, AsyncResult_get_error,
      queue_get, updCh, h1, h2]

/-- C5 witness: a fresh `AsyncResult` on channel 0 holding one success
record satisfies the hypotheses, and the idempotent-read property holds
there. -/
theorem asyncresult_read_idempotent_witness :
    (⟨0, false, Val.none, Val.none⟩ : AsyncResult).done = false ∧
    (⟨[], updCh (fun _ => []) 0 [RRecord.success (.int 5)], 1, []⟩ : World).chan
      (⟨0, false, Val.none, Val.none⟩ : AsyncResult).queue =
        RRecord.success (.int 5) :: [] ∧
    ∃ a1 w1,
      asyncresult_queue_get
          ⟨[], updCh (fun _ => []) 0 [RRecord.success (.int 5)], 1, []⟩
          ⟨0, false, Val.none, Val.none⟩ = some (a1, w1) ∧
      a1.done = true ∧
      w1.chan (⟨0, false, Val.none, Val.none⟩ : AsyncResult).queue = [] ∧
      AsyncResult_get_result
          ⟨[], updCh (fun _ => []) 0 [RRecord.success (.int 5)], 1, []⟩
          ⟨0, false, Val.none, Val.none⟩ = some (a1.result, a1, w1) ∧
      AsyncResult_get_result w1 a1 = some (a1.result, a1, w1) ∧
      AsyncResult_get_error w1 a1 = some (a1.error, a1, w1) :=
  ⟨rfl, rfl,
    asyncresult_read_idempotent
      ⟨[], updCh (fun _ => []) 0 [RRecord.success (.int 5)], 1, []⟩
      ⟨0, false, Val.none, Val.none⟩ (RRecord.success (.int 5)) [] rfl rfl⟩

/-- C6: through an `InterpObjProxy`, reading an attribute whose value on
the wrapped object is not primitive a second time returns exactly what the
first read returned — the identical proxy object — and leaves the proxy's
cache and allocation counter unchanged: the first access stores the
constructed wrapper in the cache (keyed by the attribute, or by its address
when unhashable) and the repeat access returns the cached wrapper. -/
theorem objproxy_attr_cache_identity (generic : String → Option Val)
    (attrs : String → Option AttrV) (name : String) (st : ProxyState)
    (av : AttrV)
    (hgen : generic name = Option.none)
    (hattr : attrs name = some av)
    (hprim : interp_is_primitive av.v = false) :
    InterpObjProxy_getattro generic attrs name
        (InterpObjProxy_getattro generic attrs name st).2 =
      InterpObjProxy_getattro generic attrs name st := by
  unfold InterpObjProxy_getattro
  simp only [hgen, hattr, hprim, Bool.false_eq_true, if_false]
  cases hcl : cacheLookup st.cache
      (if av.hashable then Sum.inl av.v else Sum.inr av.addr) with
  | some p => simp [hcl]
  | none => simp [hcl, cacheLookup]

/-- C6 witness: a proxy wrapping an object whose attribute `x` is a
non-primitive hashable value; the repeated read returns the identical
cached wrapper. -/
theorem objproxy_attr_cache_identity_witness :
    ((fun _ => Option.none) : String → Option Val) "x" = Option.none ∧
    ((fun _ => some ⟨Val.obj 7, true, 11⟩) : String → Option AttrV) "x" =
      some ⟨Val.obj 7, true, 11⟩ ∧
    interp_is_primitive (Val.obj 7) = false ∧
    InterpObjProxy_getattro (fun _ => Option.none)
        (fun _ => some ⟨Val.obj 7, true, 11⟩) "x"
        (InterpObjProxy_getattro (fun _ => Option.none)
          (fun _ => some ⟨Val.obj 7, true, 11⟩) "x" ⟨[], 0⟩).2 =
      InterpObjProxy_getattro (fun _ => Option.none)
        (fun _ => some ⟨Val.obj 7, true, 11⟩) "x" ⟨[], 0⟩ :=
  ⟨rfl, rfl, rfl,
    objproxy_attr_cache_identity (fun _ => Option.none)
      (fun _ => some ⟨Val.obj 7, true, 11⟩) "x" ⟨[], 0⟩
      ⟨Val.obj 7, true, 11⟩ rfl rfl rfl⟩

/-- Primitive values are not callable: `PyCallable_Check` fails on ints,
strings, booleans and None. -/
theorem primitive_not_callable (v : Val) (h : interp_is_primitive v = true) :
    val_callable v = false := by
  cases v <;> simp_all [interp_is_primitive, val_callable]

/-- A primitive positional or keyword argument passes through the
`InterpCall_call` translation loop unchanged, with no wrapper allocated. -/
theorem interpcall_wrap_arg_primitive (caller n : Nat) (v : Val)
    (h : interp_is_primitive v = true) :
    interpcall_wrap_arg caller v n = (v, n) := by
  simp [interpcall_wrap_arg, h]

/-- A primitive return value passes through the `InterpCall_call` return
translation unchanged. -/
theorem interpcall_wrap_ret_primitive (target n : Nat) (v : Val)
    (h : interp_is_primitive v = true) :
    interpcall_wrap_ret target v n = (v, n) := by
  cases v <;> simp_all [interpcall_wrap_ret, interp_is_primitive, val_callable]

/-- An all-primitive positional-argument list is passed through
unchanged. -/
theorem interpcall_wrap_args_primitive (caller : Nat) (args : List Val) (n : Nat)
    (h : ∀ v ∈ args, interp_is_primitive v = true) :
    interpcall_wrap_args caller args n = (args, n) := by
  induction args generalizing n with
  | nil => rfl
  | cons v rest ih =>
    have hv := h v (List.mem_cons_self v rest)
    simp [interpcall_wrap_args,
      interpcall_wrap_arg_primitive caller n v hv,
      ih n fun x hx => h x (List.mem_cons_of_mem v hx)]

/-- An all-primitive keyword-argument dict is passed through unchanged. -/
theorem interpcall_wrap_kwargs_primitive (caller : Nat)
    (kwargs : List (String × Val)) (n : Nat)
    (h : ∀ p ∈ kwargs, interp_is_primitive p.2 = true) :
    interpcall_wrap_kwargs caller kwargs n = (kwargs, n) := by
  induction kwargs generalizing n with
  | nil => rfl
  | cons p rest ih =>
    have hv := h p (List.mem_cons_self p rest)
    simp [interpcall_wrap_kwargs,
      interpcall_wrap_arg_primitive caller n p.2 hv,
      ih n fun x hx => h x (List.mem_cons_of_mem p hx)]

/-- A primitive argument passes through the `InterpObjProxy_call`
translation unchanged. -/
theorem objproxy_wrap_arg_primitive (n : Nat) (v : Val)
    (h : interp_is_primitive v = true) :
    objproxy_wrap_arg v n = (v, n) := by
  simp [objproxy_wrap_arg, h]

/-- An all-primitive argument list passes through the
`InterpObjProxy_call` translation unchanged. -/
theorem objproxy_wrap_args_primitive (args : List Val) (n : Nat)
    (h : ∀ v ∈ args, interp_is_primitive v = true) :
    objproxy_wrap_args args n = (args, n) := by
  induction args generalizing n with
  | nil => rfl
  | cons v rest ih =>
    have hv := h v (List.mem_cons_self v rest)
    simp [objproxy_wrap_args, objproxy_wrap_arg_primitive n v hv,
      ih n fun x hx => h x (List.mem_cons_of_mem v hx)]

/-- A primitive return value passes through the `InterpObjProxy_call`
return translation unchanged. -/
theorem objproxy_wrap_ret_primitive (n : Nat) (v : Val)
    (h : interp_is_primitive v = true) :
    objproxy_wrap_ret v n = (v, n) := by
  cases v <;> simp_all [objproxy_wrap_ret, interp_is_primitive]

/-- C7: primitives are transparent through call-proxy invocation.  For
every invocation of `InterpCall_call` or `InterpObjProxy_call` whose
positional arguments, keyword arguments and return value are all primitive
(integer, string, boolean or none): the callee receives exactly the
original argument values, the caller receives exactly the callable's return
value, and no wrapper of any kind is allocated (the wrapper-identity
counter is returned unchanged). -/
theorem callproxy_primitive_transparency (target caller n : Nat)
    (f : List Val → List (String × Val) → Except Exc Val)
    (g : List Val → Except Exc Val)
    (args : List Val) (kwargs : List (String × Val))
    (hargs : ∀ v ∈ args, interp_is_primitive v = true)
    (hkw : ∀ p ∈ kwargs, interp_is_primitive p.2 = true)
    (hf : ∀ r, f args kwargs = .ok r → interp_is_primitive r = true)
    (hg : ∀ r, g args = .ok r → interp_is_primitive r = true) :
    interpcall_wrap_args caller args n = (args, n) ∧
    interpcall_wrap_kwargs caller kwargs n = (kwargs, n) ∧
    InterpCall_call_marshal target caller f args kwargs n = (f args kwargs, n) ∧
    objproxy_wrap_args args n = (args, n) ∧
    InterpObjProxy_call_marshal g args n = (g args, n) := by
  refine ⟨interpcall_wrap_args_primitive caller args n hargs,
    interpcall_wrap_kwargs_primitive caller kwargs n hkw, ?_,
    objproxy_wrap_args_primitive args n hargs, ?_⟩
  · unfold InterpCall_call_marshal
    simp only [interpcall_wrap_args_primitive caller args n hargs,
      interpcall_wrap_kwargs_primitive caller kwargs n hkw]
    cases hr : f args kwargs with
    | error e => simp [hr]
    | ok r => simp [hr, interpcall_wrap_ret_primitive target n r (hf r hr)]
  · unfold InterpObjProxy_call_marshal
    simp only [objproxy_wrap_args_primitive args n hargs]
    cases hr : g args with
    | error e => simp [hr]
    | ok r => simp [hr, objproxy_wrap_ret_primitive n r (hg r hr)]

/-- C7 witness: a call with primitive positional arguments, a primitive
keyword argument, and primitive return values passes everything through
unwrapped. -/
theorem callproxy_primitive_transparency_witness :
    (∀ v ∈ [Val.int 3, Val.str "a", Val.bool true, Val.none],
      interp_is_primitive v = true) ∧
    (∀ p ∈ [("k", Val.int 9)], interp_is_primitive (Prod.snd p) = true) ∧
    (∀ r, (fun (_ : List Val) (_ : List (String × Val)) =>
        (Except.ok (Val.int 7) : Except Exc Val))
        [Val.int 3, Val.str "a", Val.bool true, Val.none] [("k", Val.int 9)] =
          .ok r → interp_is_primitive r = true) ∧
    (∀ r, (fun (_ : List Val) => (Except.ok (Val.str "s") : Except Exc Val))
        [Val.int 3, Val.str "a", Val.bool true, Val.none] = .ok r →
          interp_is_primitive r = true) ∧
    (interpcall_wrap_args 2 [Val.int 3, Val.str "a", Val.bool true, Val.none] 0 =
        ([Val.int 3, Val.str "a", Val.bool true, Val.none], 0) ∧
      interpcall_wrap_kwargs 2 [("k", Val.int 9)] 0 = ([("k", Val.int 9)], 0) ∧
      InterpCall_call_marshal 1 2
          (fun _ _ => (Except.ok (Val.int 7) : Except Exc Val))
          [Val.int 3, Val.str "a", Val.bool true, Val.none] [("k", Val.int 9)] 0 =
        (.ok (.int 7), 0) ∧
      objproxy_wrap_args [Val.int 3, Val.str "a", Val.bool true, Val.none] 0 =
        ([Val.int 3, Val.str "a", Val.bool true, Val.none], 0) ∧
      InterpObjProxy_call_marshal
          (fun _ => (Except.ok (Val.str "s") : Except Exc Val))
          [Val.int 3, Val.str "a", Val.bool true, Val.none] 0 =
        (.ok (.str "s"), 0)) :=
  ⟨by decide,
   by decide,
   fun r hr => by injection hr with h; subst h; rfl,
   fun r hr => by injection hr with h; subst h; rfl,
   callproxy_primitive_transparency 1 2 0
     (fun _ _ => (Except.ok (Val.int 7) : Except Exc Val))
     (fun _ => (Except.ok (Val.str "s") : Except Exc Val))
     [Val.int 3, Val.str "a", Val.bool true, Val.none] [("k", Val.int 9)]
     (by decide) (by decide)
     (fun r hr => by injection hr with h; subst h; rfl)
     (fun r hr => by injection hr with h; subst h; rfl)⟩

/-- C8 counterexample: the claim says an absent attribute surfaces as an
AttributeError-kind failure for both `InterpObjProxy_getattro` and
`MainInterp_getattro`.  For `MainInterp`, a name absent from the main
interpreter's `__main__` namespace raises a `NameError`
("name … is not defined"), which is not an AttributeError-kind failure. -/
theorem maininterp_absent_name_cex :
    (MainInterp_getattro 0 (fun _ => Option.none) (fun _ => Option.none)
        "foo" ⟨[], 0⟩).1 = AttrRes.nameError ∧
    AttrRes.nameError ≠ AttrRes.attrError := by
  decide

/-- C8 (amended): for attribute reads through `InterpObjProxy` where the
wrapped value has no attribute of the requested name, the failure raised in
the caller's context is the AttributeError raised in the target context,
so callers can probe object proxies safely; `MainInterp`'s attribute
forwarding instead raises a NameError-kind failure when the requested name
is absent from the main interpreter's namespace.  Neither read mutates the
proxy's cache state. -/
theorem proxy_absent_attr_errors (generic gen2 : String → Option Val)
    (attrs : String → Option AttrV) (mainDict : String → Option Val)
    (name name2 : String) (st : ProxyState) (st2 : MIState) (mainTS : Nat)
    (hgen : generic name = Option.none) (hattr : attrs name = Option.none)
    (hgen2 : gen2 name2 = Option.none) (hdict : mainDict name2 = Option.none) :
    InterpObjProxy_getattro generic attrs name st = (.attrError, st) ∧
    MainInterp_getattro mainTS gen2 mainDict name2 st2 = (.nameError, st2) := by
  constructor
  · simp [InterpObjProxy_getattro, hgen, hattr]
  · simp [MainInterp_getattro, hgen2, hdict]

/-- C8 witness: probing a proxy over an attribute-less object for "missing"
raises an AttributeError-kind failure, while probing MainInterp for the
same absent name raises a NameError-kind failure. -/
theorem proxy_absent_attr_errors_witness :
    ((fun _ => Option.none) : String → Option Val) "missing" = Option.none ∧
    ((fun _ => Option.none) : String → Option AttrV) "missing" = Option.none ∧
    (InterpObjProxy_getattro (fun _ => Option.none) (fun _ => Option.none)
        "missing" ⟨[], 0⟩ = (.attrError, ⟨[], 0⟩) ∧
      MainInterp_getattro 0 (fun _ => Option.none) (fun _ => Option.none)
        "missing" ⟨[], 0⟩ = (.nameError, ⟨[], 0⟩)) :=
  ⟨rfl, rfl,
    proxy_absent_attr_errors (fun _ => Option.none) (fun _ => Option.none)
      (fun _ => Option.none) (fun _ => Option.none) "missing" "missing"
      ⟨[], 0⟩ ⟨[], 0⟩ 0 rfl rfl rfl rfl⟩

end AltHexPython
